import Mathlib

/-!
Verification of the telemetry classification and response pipeline of
`src/app.py` (autonomous-aftersales-os).  The Streamlit presentation layer
is out of scope; the definitions below shallowly embed the computational
logic of the source: sensor simulation, threshold classification, the three
fallback-guarded generation stages, response cleanup and parsing, and
service-slot generation.  Sensor magnitudes are embedded as rationals and
Python strings as `List Char` where character-level reasoning is needed.
-/

namespace Aftersales

/-- Severity of a single finding reported by the Sentinel threshold check
(`check_thresholds`, src/app.py:308-346): the source renders critical
findings with a red marker and warnings with a yellow one. -/
inductive Severity
  | warning
  | critical
deriving DecidableEq, Repr

/-- The three monitored signals of a reading (src/app.py:308-346). -/
inductive Signal
  | temperature
  | vibration
  | voltage
deriving DecidableEq, Repr

/-- One anomaly record appended to the `anomalies` list of
`check_thresholds`: the rendered message carries a severity marker, the
signal name and the offending value, embedded here as fields. -/
structure Finding where
  severity : Severity
  signal : Signal
  value : ℚ
deriving DecidableEq, Repr

/-- One simulated sensor sample (spec section 3, Reading); the timestamp is
carried but never inspected by the classifier. -/
structure Reading where
  temperature : ℚ
  vibration : ℚ
  voltage : ℚ
  timestamp : ℤ
deriving DecidableEq, Repr

/-- Classifier output (spec section 3, Verdict): the pair returned by
`check_thresholds` (src/app.py:346). -/
structure Verdict where
  is_critical : Bool
  findings : List Finding
deriving DecidableEq, Repr

/-- First block of `check_thresholds` (src/app.py:328-332): the temperature
check appends at most one finding to the accumulator and may set the
critical flag. -/
def check_thresholds_temp (temp : ℚ) (anomalies : List Finding)
    (is_critical : Bool) : List Finding × Bool :=
  if temp > 110 then
    (anomalies ++ [⟨.critical, .temperature, temp⟩], true)
  else if temp > 95 then
    (anomalies ++ [⟨.warning, .temperature, temp⟩], is_critical)
  else
    (anomalies, is_critical)

/-- Second block of `check_thresholds` (src/app.py:334-338): the vibration
check. -/
def check_thresholds_vibration (vibration : ℚ) (anomalies : List Finding)
    (is_critical : Bool) : List Finding × Bool :=
  if vibration > 8.5 then
    (anomalies ++ [⟨.critical, .vibration, vibration⟩], true)
  else if vibration > 7.0 then
    (anomalies ++ [⟨.warning, .vibration, vibration⟩], is_critical)
  else
    (anomalies, is_critical)

/-- Third block of `check_thresholds` (src/app.py:340-344): the voltage
check. -/
def check_thresholds_voltage (voltage : ℚ) (anomalies : List Finding)
    (is_critical : Bool) : List Finding × Bool :=
  if voltage < 10.5 then
    (anomalies ++ [⟨.critical, .voltage, voltage⟩], true)
  else if voltage < 11.5 then
    (anomalies ++ [⟨.warning, .voltage, voltage⟩], is_critical)
  else
    (anomalies, is_critical)

/-- Sentinel agent logic `check_thresholds` (src/app.py:308-346): starts
from an empty anomaly list and a false critical flag, runs the three signal
blocks in source order and returns `(is_critical, anomalies)`. -/
def check_thresholds (temp vibration voltage : ℚ) : Bool × List Finding :=
  let s1 := check_thresholds_temp temp [] false
  let s2 := check_thresholds_vibration vibration s1.1 s1.2
  let s3 := check_thresholds_voltage voltage s2.1 s2.2
  (s3.2, s3.1)

/-- Spec section 4.2 `classify`: packages the `check_thresholds` pair as a
Verdict (the source call site is src/app.py:749). -/
def classify (r : Reading) : Verdict :=
  let p := check_thresholds r.temperature r.vibration r.voltage
  ⟨p.1, p.2⟩

/-- Findings sequence as the spec words it (spec section 4.2 threshold
table and evaluation order): per signal at most one finding, critical
before warning, concatenated in the order temperature, vibration, voltage.
Spec side of the refinement claim C1. -/
def spec_findings (r : Reading) : List Finding :=
  (if r.temperature > 110 then [⟨.critical, .temperature, r.temperature⟩]
   else if r.temperature > 95 then [⟨.warning, .temperature, r.temperature⟩]
   else [])
  ++ (if r.vibration > 8.5 then [⟨.critical, .vibration, r.vibration⟩]
      else if r.vibration > 7.0 then [⟨.warning, .vibration, r.vibration⟩]
      else [])
  ++ (if r.voltage < 10.5 then [⟨.critical, .voltage, r.voltage⟩]
      else if r.voltage < 11.5 then [⟨.warning, .voltage, r.voltage⟩]
      else [])

/-- Critical flag as the spec words it (spec section 4.2): logical OR of
the three per-signal critical conditions.  Spec side of claim C1. -/
def spec_is_critical (r : Reading) : Bool :=
  decide (r.temperature > 110) || decide (r.vibration > 8.5)
    || decide (r.voltage < 10.5)

/-- Overheating diagnosis template, first branch of
`mock_mechanic_diagnosis` (src/app.py:492). -/
def overheating_diagnosis : String :=
  "🔧 Diagnosis: Engine overheating detected. Primary suspect: Failed thermostat or water pump failure. Recommend immediate inspection of cooling system. Risk Level: CRITICAL"

/-- Vibration diagnosis template (src/app.py:494). -/
def vibration_diagnosis : String :=
  "🔧 Diagnosis: Excessive vibration indicates mechanical imbalance. Likely causes: Worn engine mounts, bearing issues, or fuel injection problem. Recommend alignment check and engine inspection."

/-- Voltage diagnosis template (src/app.py:496). -/
def voltage_diagnosis : String :=
  "🔧 Diagnosis: Battery voltage critically low. Suspect: Alternator malfunction or battery cell degradation. Vehicle electrical systems at risk. Recommend battery/alternator test."

/-- Generic diagnosis template (src/app.py:498). -/
def generic_diagnosis : String :=
  "🔧 Diagnosis: Multiple system anomalies detected. Recommend comprehensive diagnostic scan and OBD-II analysis."

/-- Stage A fallback `mock_mechanic_diagnosis` (src/app.py:489-498); the
anomalies argument is accepted but never inspected, as in the source. -/
def mock_mechanic_diagnosis (temp vibration voltage : ℚ)
    (anomalies : List Finding) : String :=
  if temp > 110 then overheating_diagnosis
  else if vibration > 8.5 then vibration_diagnosis
  else if voltage < 10.5 then voltage_diagnosis
  else generic_diagnosis

/-- Body of the Stage B fallback message that follows the customer name
(src/app.py:543). -/
def customer_message_body : String :=
  ",\n\nWe\x27ve detected an issue with your vehicle during our proactive monitoring. Our technicians have identified a potential problem that needs attention soon. We\x27d like to schedule a service appointment at your earliest convenience. We\x27re here to help! 🚗"

/-- Stage B fallback `mock_customer_message` (src/app.py:541-543); the
diagnosis argument is accepted but never inspected, as in the source. -/
def mock_customer_message (diagnosis customer_name : String) : String :=
  "Hi " ++ customer_name ++ customer_message_body

/-- Stage C fallback `mock_manufacturing_feedback` (src/app.py:598-604),
a flat record of three string fields keyed on `temp > 100`; the vibration
and voltage arguments are accepted but never inspected, as in the
source. -/
def mock_manufacturing_feedback (temp vibration voltage : ℚ) :
    List (List Char × List Char) :=
  [("Root_Cause".toList,
    (if temp > 100 then "Thermal management system degradation"
     else "Electrical subsystem performance drift").toList),
   ("Defect_Cluster_ID".toList,
    (if temp > 100 then "CLUSTER_THERM_001" else "CLUSTER_ELEC_002").toList),
   ("Design_Improvement_Suggestion".toList,
    (if temp > 100 then "Upgrade coolant circulation pump capacity and add secondary thermal sensor redundancy"
     else "Implement higher-capacity alternator and battery with integrated voltage regulation module").toList)]

/-- One behaviour of the external text-generation capability as observed
by a stage: the call raises, or it returns a response object that is
either falsy (`ok none`) or carries a text (`ok (some t)`). -/
inductive GenOutcome
  | raise
  | ok (response : Option String)

/-- Stage A `call_gemini_mechanic` (src/app.py:448-487): with the client
not ready the mock is returned; otherwise a raising call or a falsy
response falls back to the mock and a truthy response yields its text. -/
def call_gemini_mechanic (ready : Bool) (cap : GenOutcome)
    (temp vibration voltage : ℚ) (anomalies : List Finding) : String :=
  if !ready then mock_mechanic_diagnosis temp vibration voltage anomalies
  else
    match cap with
    | .raise => mock_mechanic_diagnosis temp vibration voltage anomalies
    | .ok none => mock_mechanic_diagnosis temp vibration voltage anomalies
    | .ok (some t) => t

/-- Stage B `call_gemini_concierge` (src/app.py:500-539): same control
shape as Stage A, with the customer-message mock as fallback. -/
def call_gemini_concierge (ready : Bool) (cap : GenOutcome)
    (diagnosis customer_name : String) : String :=
  if !ready then mock_customer_message diagnosis customer_name
  else
    match cap with
    | .raise => mock_customer_message diagnosis customer_name
    | .ok none => mock_customer_message diagnosis customer_name
    | .ok (some t) => t

/-- Whitespace set of Python `str.strip` (space, tab, newline, carriage
return, vertical tab, form feed). -/
def pyIsSpace (c : Char) : Bool :=
  c = ' ' || c = '\t' || c = '\n' || c = '\r' || c = '\x0b' || c = '\x0c'

/-- Python `str.strip()` on the character list: drop leading and trailing
whitespace. -/
def pyStrip (s : List Char) : List Char :=
  ((s.dropWhile pyIsSpace).reverse.dropWhile pyIsSpace).reverse

/-- Python `str.replace(pat, rep)`: left-to-right, non-overlapping global
substring replacement (the source only calls it with non-empty
patterns). -/
def str_replace (pat rep : List Char) : List Char → List Char
  | [] => []
  | c :: cs =>
    if pat ≠ [] ∧ pat <+: (c :: cs) then
      rep ++ str_replace pat rep (cs.drop (pat.length - 1))
    else
      c :: str_replace pat rep cs
termination_by s => s.length
decreasing_by
  · simp only [List.length_drop, List.length_cons]; omega
  · simp only [List.length_cons]; omega

/-- The opening code-fence marker removed first (src/app.py:587). -/
def fence_json : List Char := "```json".toList

/-- The bare code-fence marker removed second (src/app.py:587). -/
def fence : List Char := "```".toList

/-- Cleanup applied to the Stage C capability response
(src/app.py:587): delete every occurrence of the json fence marker, then
every occurrence of the bare fence marker, then strip whitespace. -/
def clean_response (s : List Char) : List Char :=
  pyStrip (str_replace fence [] (str_replace fence_json [] s))

/-- A payload wrapped in markdown fence markers, as a capability would
return it (claim C8). -/
def fence_wrap (p : List Char) : List Char :=
  "```json\n".toList ++ p ++ "\n```".toList

/-- Skip Python-style whitespace, helper of the `json.loads` model. -/
def skipWs : List Char → List Char
  | [] => []
  | c :: cs => if pyIsSpace c then skipWs cs else c :: cs

/-- Parse the body of a double-quoted string (no escape sequences),
returning the content and the remainder after the closing quote. -/
def parseStringBody : List Char → Option (List Char × List Char)
  | [] => none
  | c :: cs =>
    if c = '\x22' then some ([], cs)
    else
      match parseStringBody cs with
      | some (s, rest) => some (c :: s, rest)
      | none => none

/-- Parse one or more `"key": "value"` members up to the closing brace;
the fuel argument bounds the recursion by the input length. -/
def parseMembers : Nat → List Char →
    Option (List (List Char × List Char) × List Char)
  | 0, _ => none
  | fuel + 1, s =>
    match skipWs s with
    | '\x22' :: cs =>
      match parseStringBody cs with
      | none => none
      | some (key, rest) =>
        match skipWs rest with
        | ':' :: r2 =>
          match skipWs r2 with
          | '\x22' :: r3 =>
            match parseStringBody r3 with
            | none => none
            | some (val, r4) =>
              match skipWs r4 with
              | ',' :: r5 =>
                match parseMembers fuel r5 with
                | some (ms, r6) => some ((key, val) :: ms, r6)
                | none => none
              | '\x7d' :: r5 => some ([(key, val)], r5)
              | _ => none
          | _ => none
        | _ => none
    | _ => none

/-- Model of Python `json.loads` restricted to flat objects with string
keys and string values and no escape sequences; every other payload fails
to parse.  The structured records this program exchanges are exactly such
flat objects, and the claims settled against this model either hypothesise
the parse outcome or exercise only such records. -/
def json_loads (s : List Char) : Option (List (List Char × List Char)) :=
  match skipWs s with
  | '\x7b' :: rest =>
    match skipWs rest with
    | '\x7d' :: r2 => if skipWs r2 = [] then some [] else none
    | _ =>
      match parseMembers (rest.length + 1) rest with
      | some (ms, r2) => if skipWs r2 = [] then some ms else none
      | none => none
  | _ => none

/-- Stage C `call_gemini_manufacturing` (src/app.py:545-596): with the
client not ready or a raising call the mock is returned; a falsy response
is replaced by the empty-object text, the response text is cleaned of
fence markers and stripped, and a parse failure falls back to the mock. -/
def call_gemini_manufacturing (ready : Bool) (cap : GenOutcome)
    (temp vibration voltage : ℚ) : List (List Char × List Char) :=
  if !ready then mock_manufacturing_feedback temp vibration voltage
  else
    match cap with
    | .raise => mock_manufacturing_feedback temp vibration voltage
    | .ok r =>
      let response_text : String :=
        match r with
        | some t => t
        | none => "\x7b\x7d"
      match json_loads (clean_response response_text.toList) with
      | some d => d
      | none => mock_manufacturing_feedback temp vibration voltage

/-- Signal simulator `generate_sensor_data` (src/app.py:263-284).  The
injectable random source supplies three standard-normal draws g1, g2, g3;
`np.random.normal(0, s)` is `s * g` for a standard-normal `g`, so the
three noise terms carry standard deviations `noise_level`,
`noise_level * 0.1` and `noise_level * 0.05` (the source call sites use
the default `noise_level = 2.0`). -/
def generate_sensor_data (base_temp base_vibration base_voltage : ℚ)
    (noise_level : ℚ) (g1 g2 g3 : ℚ) : ℚ × ℚ × ℚ :=
  (max 50 (base_temp + noise_level * g1),
   max 0 (base_vibration + noise_level * 0.1 * g2),
   max 8 (base_voltage + noise_level * 0.05 * g3))

/-- Service slot generator `get_available_service_slots`
(src/app.py:606-613), time measured in hours: five slots, one every 24
hours starting 24 hours from `now`.  A slot label is identified with the
time it denotes (the `strftime` rendering is presentation). -/
def get_available_service_slots (now : ℤ) : List ℤ :=
  (List.range' 1 5).map (fun i => now + 24 * (i : ℤ))

lemma classify_eq_spec (r : Reading) :
    classify r = ⟨spec_is_critical r, spec_findings r⟩ := by
  simp only [classify, check_thresholds, check_thresholds_temp,
    check_thresholds_vibration, check_thresholds_voltage, spec_findings,
    spec_is_critical]
  split_ifs <;> simp_all

lemma str_replace_nil (pat rep : List Char) : str_replace pat rep [] = [] := by
  simp [str_replace]

lemma replace_cons_no_match (pat rep : List Char) (c : Char) (cs : List Char)
    (h : ¬ pat <+: c :: cs) :
    str_replace pat rep (c :: cs) = c :: str_replace pat rep cs := by
  have h' : ¬ (pat ≠ [] ∧ pat <+: c :: cs) := fun hc => h hc.2
  rw [str_replace, if_neg h']

lemma replace_cons_match (pat rep : List Char) (c : Char) (cs : List Char)
    (h : pat <+: c :: cs) (hne : pat ≠ []) :
    str_replace pat rep (c :: cs)
      = rep ++ str_replace pat rep (cs.drop (pat.length - 1)) := by
  rw [str_replace, if_pos ⟨hne, h⟩]

lemma replace_pat_append (pat rep s : List Char) (hne : pat ≠ []) :
    str_replace pat rep (pat ++ s) = rep ++ str_replace pat rep s := by
  cases pat with
  | nil => exact absurd rfl hne
  | cons p0 pt =>
    rw [List.cons_append,
      replace_cons_match _ _ _ _ (by rw [← List.cons_append]; exact List.prefix_append _ _) hne]
    simp [List.length_cons, List.drop_left]

lemma replace_append_left (pat rep : List Char) (a : Char)
    (hhead : pat.head? = some a) :
    ∀ u s : List Char, a ∉ u →
      str_replace pat rep (u ++ s) = u ++ str_replace pat rep s := by
  intro u
  induction u with
  | nil => intro s _; simp
  | cons c u' ih =>
    intro s hu
    have hc : ¬ pat <+: c :: (u' ++ s) := by
      intro hpre
      cases pat with
      | nil => simp at hhead
      | cons p0 pt =>
        rw [List.cons_prefix_cons] at hpre
        simp only [List.head?_cons, Option.some.injEq] at hhead
        exact hu (by rw [← hhead, hpre.1]; exact List.mem_cons_self _ _)
    rw [List.cons_append, replace_cons_no_match _ _ _ _ hc,
      ih s (fun hm => hu (List.mem_cons_of_mem _ hm)), List.cons_append]

lemma replace_all_miss (pat rep : List Char) (a : Char)
    (hhead : pat.head? = some a) (s : List Char) (hs : a ∉ s) :
    str_replace pat rep s = s := by
  have := replace_append_left pat rep a hhead s [] hs
  simpa [str_replace_nil] using this

lemma replace_of_short (pat rep : List Char) :
    ∀ s : List Char, s.length < pat.length → str_replace pat rep s = s := by
  intro s
  induction s with
  | nil => intro _; exact str_replace_nil _ _
  | cons c cs ih =>
    intro h
    have hc : ¬ pat <+: c :: cs := by
      intro hpre
      have := hpre.length_le
      simp only [List.length_cons] at this h
      omega
    rw [replace_cons_no_match _ _ _ _ hc,
      ih (by simp only [List.length_cons] at h; omega)]

lemma replace_cons_sep (pat rep : List Char) (a : Char) (ha : a ∉ pat)
    (hp : pat ≠ []) (v : List Char) :
    str_replace pat rep (a :: v) = a :: str_replace pat rep v := by
  apply replace_cons_no_match
  intro hpre
  cases pat with
  | nil => exact hp rfl
  | cons p0 pt =>
    rw [List.cons_prefix_cons] at hpre
    exact ha (by rw [hpre.1]; exact List.mem_cons_self _ _)

lemma replace_split (pat rep : List Char) (a : Char) (ha : a ∉ pat)
    (hp : pat ≠ []) :
    ∀ u v : List Char,
      str_replace pat rep (u ++ a :: v)
        = str_replace pat rep u ++ a :: str_replace pat rep v := by
  suffices H : ∀ (n : ℕ) (u v : List Char), u.length ≤ n →
      str_replace pat rep (u ++ a :: v)
        = str_replace pat rep u ++ a :: str_replace pat rep v from
    fun u v => H u.length u v le_rfl
  intro n
  induction n with
  | zero =>
    intro u v hu
    have hnil : u = [] := List.length_eq_zero.mp (Nat.le_zero.mp hu)
    subst hnil
    simp [str_replace_nil, replace_cons_sep pat rep a ha hp]
  | succ n ih =>
    intro u v hu
    cases u with
    | nil => simp [str_replace_nil, replace_cons_sep pat rep a ha hp]
    | cons c u' =>
      rw [List.cons_append]
      by_cases hm : pat <+: c :: (u' ++ a :: v)
      · have hlen : pat.length ≤ u'.length + 1 := by
          by_contra hgt
          push_neg at hgt
          have htake := List.prefix_iff_eq_take.mp hm
          rw [show c :: (u' ++ a :: v) = (c :: u') ++ (a :: v) from rfl,
            List.take_append_eq_append_take] at htake
          have hkpos : pat.length - (c :: u').length ≠ 0 := by
            simp only [List.length_cons]; omega
          obtain ⟨k', hk'⟩ := Nat.exists_eq_succ_of_ne_zero hkpos
          rw [hk', List.take_succ_cons] at htake
          exact ha (by
            rw [htake]
            exact List.mem_append_right _ (List.mem_cons_self _ _))
        have hm' : pat <+: c :: u' := by
          rw [List.prefix_iff_eq_take] at hm ⊢
          rw [show c :: (u' ++ a :: v) = (c :: u') ++ (a :: v) from rfl,
            List.take_append_eq_append_take] at hm
          have h0 : pat.length - (c :: u').length = 0 := by
            simp only [List.length_cons]; omega
          rw [h0, List.take_zero, List.append_nil] at hm
          exact hm
        rw [replace_cons_match _ _ _ _ hm hp,
          replace_cons_match _ _ _ _ hm' hp,
          List.drop_append_of_le_length (by omega),
          ih (u'.drop (pat.length - 1)) v
            (by
              simp only [List.length_drop]
              simp only [List.length_cons] at hu
              omega)]
        simp [List.append_assoc]
      · have hm2 : ¬ pat <+: c :: u' := by
          intro hpre
          exact hm (hpre.trans (by
            rw [show c :: (u' ++ a :: v) = (c :: u') ++ (a :: v) from rfl]
            exact List.prefix_append _ _))
        rw [replace_cons_no_match _ _ _ _ hm,
          replace_cons_no_match _ _ _ _ hm2,
          ih u' v (by simp only [List.length_cons] at hu; omega)]
        simp

lemma pyStrip_cons_space (a : Char) (s : List Char) (h : pyIsSpace a = true) :
    pyStrip (a :: s) = pyStrip s := by
  simp [pyStrip, List.dropWhile_cons, h]

lemma pyStrip_append_space (s : List Char) (a : Char) (h : pyIsSpace a = true) :
    pyStrip (s ++ [a]) = pyStrip s := by
  by_cases hd : (s.dropWhile pyIsSpace).isEmpty
  · have hnil : s.dropWhile pyIsSpace = [] := by
      cases hcase : s.dropWhile pyIsSpace with
      | nil => rfl
      | cons x xs => rw [hcase] at hd; simp at hd
    simp [pyStrip, List.dropWhile_append, hd, hnil, List.dropWhile_cons, h]
  · simp [pyStrip, List.dropWhile_append, hd, List.reverse_append,
      List.dropWhile_cons, h]

/-- Claim C1: classify evaluates temperature, then vibration, then voltage,
each signal producing at most one finding with critical taking precedence
over warning, and is_critical is the OR of the critical conditions; for
temperature above 110 the first finding is the critical temperature entry;
for temperature in (95,110] there is exactly one temperature warning
finding and is_critical holds exactly when another signal is critical. -/
theorem classifier_order_and_precedence (r : Reading) :
    classify r = ⟨spec_is_critical r, spec_findings r⟩
    ∧ (∀ s : Signal,
        ((classify r).findings.filter (fun f => decide (f.signal = s))).length ≤ 1)
    ∧ (r.temperature > 110 →
        (classify r).findings.head? = some ⟨.critical, .temperature, r.temperature⟩)
    ∧ (95 < r.temperature → r.temperature ≤ 110 →
        ((classify r).findings.filter
            (fun f => decide (f.severity = Severity.warning)
              && decide (f.signal = Signal.temperature))).length = 1
        ∧ (classify r).is_critical
            = (decide (r.vibration > 8.5) || decide (r.voltage < 10.5))) := by
  refine ⟨classify_eq_spec r, ?_, ?_, ?_⟩
  · intro s
    rw [classify_eq_spec]
    simp only [spec_findings]
    cases s <;> split_ifs <;> simp_all
  · intro h
    rw [classify_eq_spec]
    simp [spec_findings, h]
  · intro h1 h2
    rw [classify_eq_spec]
    have h3 : ¬ r.temperature > 110 := by linarith
    constructor
    · simp only [spec_findings]
      split_ifs <;> simp_all
    · simp [spec_is_critical, h3]

/-- Witness for C1 at the concrete reading (100, 9, 13, 0): temperature in
(95,110], vibration critical. -/
theorem classifier_order_and_precedence_witness :
    ((95 : ℚ) < 100 ∧ (100 : ℚ) ≤ 110)
    ∧ ((classify ⟨100, 9, 13, 0⟩).findings.filter
        (fun f => decide (f.severity = Severity.warning)
          && decide (f.signal = Signal.temperature))).length = 1 := by
  have h := (classifier_order_and_precedence ⟨100, 9, 13, 0⟩).2.2.2
    (by decide) (by decide)
  exact ⟨⟨by decide, by decide⟩, h.1⟩

/-- Claim C2: the Verdict critical flag holds iff at least one finding has
severity critical. -/
theorem is_critical_iff_some_critical_finding (r : Reading) :
    (classify r).is_critical = true
      ↔ ∃ f ∈ (classify r).findings, f.severity = Severity.critical := by
  rw [classify_eq_spec]
  simp only [spec_findings, spec_is_critical]
  split_ifs <;> simp_all

/-- Claim C5: on the reading (115, 9.0, 10.0) the classifier reports
critical with exactly three findings, all critical, and the Stage A
fallback selects the temperature-priority overheating template even though
the vibration and voltage rules also match. -/
theorem critical_scenario_all_three_signals :
    (classify ⟨115, 9, 10, 0⟩).is_critical = true
    ∧ (classify ⟨115, 9, 10, 0⟩).findings.length = 3
    ∧ (∀ f ∈ (classify ⟨115, 9, 10, 0⟩).findings, f.severity = Severity.critical)
    ∧ mock_mechanic_diagnosis 115 9 10 [] = overheating_diagnosis := by
  have h9 : (9 : ℚ) > 8.5 := by norm_num
  have h10 : (10 : ℚ) < 10.5 := by norm_num
  have h115 : (115 : ℚ) > 110 := by norm_num
  refine ⟨?_, ?_, ?_, ?_⟩
  · rw [classify_eq_spec]; simp [spec_is_critical, h115]
  · rw [classify_eq_spec]; simp [spec_findings, h115, h9, h10]
  · rw [classify_eq_spec]
    simp [spec_findings, h115, h9, h10]
  · simp [mock_mechanic_diagnosis, h115]

/-- Counterexample to claim C3 as stated: with the client ready and the
capability returning a truthy response whose text is empty, Stage A
returns the empty text verbatim instead of the deterministic template
fallback. -/
theorem stage_a_empty_response_returned_verbatim :
    call_gemini_mechanic true (.ok (some "")) 115 2 13 []
      ≠ mock_mechanic_diagnosis 115 2 13 [] := by
  have h1 : call_gemini_mechanic true (.ok (some "")) 115 2 13 [] = "" := rfl
  have h2 : mock_mechanic_diagnosis 115 2 13 [] = overheating_diagnosis := by
    unfold mock_mechanic_diagnosis
    rw [if_pos (by norm_num : (115 : ℚ) > 110)]
  rw [h1, h2]
  decide

/-- Claim C3, amended: for every input, a stage whose capability is absent
or raises returns the template fallback; a falsy response yields the
fallback in Stages A and B and the empty parsed record in Stage C; a
truthy response text is returned verbatim by Stages A and B (even when
empty), and in Stage C it is cleaned and parsed, falling back to the
template exactly when parsing fails.  No error ever propagates out of a
stage (every stage is a total function). -/
theorem pipeline_failure_fallback (temp vibration voltage : ℚ)
    (anomalies : List Finding) (diagnosis customer_name : String)
    (cap : GenOutcome) (t : String) (d : List (List Char × List Char)) :
    (call_gemini_mechanic false cap temp vibration voltage anomalies
      = mock_mechanic_diagnosis temp vibration voltage anomalies)
    ∧ (call_gemini_mechanic true .raise temp vibration voltage anomalies
      = mock_mechanic_diagnosis temp vibration voltage anomalies)
    ∧ (call_gemini_mechanic true (.ok none) temp vibration voltage anomalies
      = mock_mechanic_diagnosis temp vibration voltage anomalies)
    ∧ (call_gemini_mechanic true (.ok (some t)) temp vibration voltage anomalies
      = t)
    ∧ (call_gemini_concierge false cap diagnosis customer_name
      = mock_customer_message diagnosis customer_name)
    ∧ (call_gemini_concierge true .raise diagnosis customer_name
      = mock_customer_message diagnosis customer_name)
    ∧ (call_gemini_concierge true (.ok none) diagnosis customer_name
      = mock_customer_message diagnosis customer_name)
    ∧ (call_gemini_concierge true (.ok (some t)) diagnosis customer_name
      = t)
    ∧ (call_gemini_manufacturing false cap temp vibration voltage
      = mock_manufacturing_feedback temp vibration voltage)
    ∧ (call_gemini_manufacturing true .raise temp vibration voltage
      = mock_manufacturing_feedback temp vibration voltage)
    ∧ (call_gemini_manufacturing true (.ok none) temp vibration voltage
      = [])
    ∧ (json_loads (clean_response t.toList) = none →
        call_gemini_manufacturing true (.ok (some t)) temp vibration voltage
          = mock_manufacturing_feedback temp vibration voltage)
    ∧ (json_loads (clean_response t.toList) = some d →
        call_gemini_manufacturing true (.ok (some t)) temp vibration voltage
          = d) := by
  have hempty : json_loads (clean_response ("\x7b\x7d" : String).toList)
      = some [] := by
    have h1 : str_replace fence_json [] ("\x7b\x7d" : String).toList
        = ("\x7b\x7d" : String).toList := replace_of_short _ _ _ (by decide)
    have h2 : str_replace fence [] ("\x7b\x7d" : String).toList
        = ("\x7b\x7d" : String).toList := replace_of_short _ _ _ (by decide)
    unfold clean_response
    rw [h1, h2]
    decide
  refine ⟨rfl, rfl, rfl, rfl, rfl, rfl, rfl, rfl, rfl, rfl, ?_, ?_, ?_⟩
  · show (match json_loads (clean_response ("\x7b\x7d" : String).toList) with
      | some d => d
      | none => mock_manufacturing_feedback temp vibration voltage) = []
    rw [hempty]
  · intro h
    show (match json_loads (clean_response t.toList) with
      | some d => d
      | none => mock_manufacturing_feedback temp vibration voltage)
      = mock_manufacturing_feedback temp vibration voltage
    rw [h]
  · intro h
    show (match json_loads (clean_response t.toList) with
      | some d => d
      | none => mock_manufacturing_feedback temp vibration voltage) = d
    rw [h]

/-- Witness for C3 (amended) at an unparseable response text: Stage C
falls back to the template. -/
theorem pipeline_failure_fallback_witness :
    json_loads (clean_response ("oops" : String).toList) = none
    ∧ call_gemini_manufacturing true (.ok (some "oops")) 115 2 13
      = mock_manufacturing_feedback 115 2 13 := by
  have hcl : clean_response ("oops" : String).toList
      = ("oops" : String).toList := by
    unfold clean_response
    rw [replace_of_short fence_json [] _ (by decide),
      replace_all_miss fence [] '\x60' (by decide) _ (by decide)]
    decide
  have hp : json_loads (clean_response ("oops" : String).toList) = none := by
    rw [hcl]; decide
  obtain ⟨-, -, -, -, -, -, -, -, -, -, -, h12, -⟩ :=
    pipeline_failure_fallback 115 2 13 [] "" "" GenOutcome.raise "oops" []
  exact ⟨hp, h12 hp⟩

/-- Claim C4: with the capability absent, Stage A on the reading
(115, 2, 13) returns the overheating/thermostat diagnosis template, and
Stage C on the same reading returns the thermal-cluster record. -/
theorem fallback_determinism_on_overheat (cap : GenOutcome)
    (anomalies : List Finding) :
    call_gemini_mechanic false cap 115 2 13 anomalies = overheating_diagnosis
    ∧ call_gemini_manufacturing false cap 115 2 13
      = [("Root_Cause".toList,
          "Thermal management system degradation".toList),
         ("Defect_Cluster_ID".toList, "CLUSTER_THERM_001".toList),
         ("Design_Improvement_Suggestion".toList,
          "Upgrade coolant circulation pump capacity and add secondary thermal sensor redundancy".toList)] := by
  constructor
  · show mock_mechanic_diagnosis 115 2 13 anomalies = overheating_diagnosis
    unfold mock_mechanic_diagnosis
    rw [if_pos (by norm_num : (115 : ℚ) > 110)]
  · show mock_manufacturing_feedback 115 2 13 = _
    have h : (115 : ℚ) > 100 := by norm_num
    simp [mock_manufacturing_feedback, h]

/-- Claim C6: the simulator returns the three clamped noisy channels, so
every produced reading satisfies temperature at least 50, vibration at
least 0 and voltage at least 8, for every baseline, noise level and
sample of the injectable random source. -/
theorem simulator_clamps (bt bv bw nl g1 g2 g3 : ℚ) :
    generate_sensor_data bt bv bw nl g1 g2 g3
      = (max 50 (bt + nl * g1), max 0 (bv + nl * 0.1 * g2),
         max 8 (bw + nl * 0.05 * g3))
    ∧ 50 ≤ (generate_sensor_data bt bv bw nl g1 g2 g3).1
    ∧ 0 ≤ (generate_sensor_data bt bv bw nl g1 g2 g3).2.1
    ∧ 8 ≤ (generate_sensor_data bt bv bw nl g1 g2 g3).2.2 :=
  ⟨rfl, le_max_left _ _, le_max_left _ _, le_max_left _ _⟩

/-- Claim C7: for every time T the slot generator returns exactly five
labels at T+24h through T+120h, strictly increasing, as a pure function
of T. -/
theorem service_slots_five_daily (T : ℤ) :
    get_available_service_slots T = [T + 24, T + 48, T + 72, T + 96, T + 120]
    ∧ (get_available_service_slots T).length = 5
    ∧ (get_available_service_slots T).Chain' (· < ·) := by
  refine ⟨?_, ?_, ?_⟩ <;> simp [get_available_service_slots, List.range']

/-- Claim C8: a Stage C response consisting of a payload wrapped in
markdown fence markers cleans to exactly what the unwrapped payload cleans
to, hence parses to the same structured record. -/
theorem fence_wrapped_parses_identically (p : List Char) :
    clean_response (fence_wrap p) = clean_response p := by
  have hj : '\n' ∉ fence_json := by decide
  have hf : '\n' ∉ fence := by decide
  have hjne : fence_json ≠ [] := by decide
  have hfne : fence ≠ [] := by decide
  have e1 : fence_wrap p = fence_json ++ '\n' :: (p ++ '\n' :: fence) := by
    simp [fence_wrap, fence_json, fence]
  have e2 : str_replace fence_json [] fence = fence :=
    replace_of_short _ _ _ (by decide)
  have e3 : str_replace fence [] fence = [] := by
    have := replace_pat_append fence [] [] hfne
    simpa [str_replace_nil] using this
  unfold clean_response
  rw [e1, replace_pat_append _ _ _ hjne, List.nil_append,
    replace_cons_sep _ _ _ hj hjne, replace_split fence_json [] '\n' hj hjne p fence,
    e2]
  rw [replace_cons_sep _ _ _ hf hfne,
    replace_split fence [] '\n' hf hfne (str_replace fence_json [] p) fence, e3]
  rw [pyStrip_cons_space _ _ (by decide)]
  rw [pyStrip_append_space _ _ (by decide)]

/-- Claim C10: the Stage C cleanup removes the fence markers globally, not
only as a wrapping fence: an occurrence of either marker strictly inside
the response is deleted (the surroundings here contain no backtick, and
for the bare-fence conjunct no letter j, so the interior marker is the
only occurrence); a payload carrying fence text inside its string values
is therefore altered before parsing rather than parsed verbatim. -/
theorem fence_cleanup_is_global (u v : List Char)
    (hu : '\x60' ∉ u) (hv : '\x60' ∉ v) (hjv : 'j' ∉ v) :
    clean_response (u ++ fence_json ++ v) = pyStrip (u ++ v)
    ∧ clean_response (u ++ fence ++ v) = pyStrip (u ++ v) := by
  have hhead_j : fence_json.head? = some '\x60' := by decide
  have hhead_f : fence.head? = some '\x60' := by decide
  have hjne : fence_json ≠ [] := by decide
  have hfne : fence ≠ [] := by decide
  have huv : '\x60' ∉ u ++ v := by
    simp only [List.mem_append]
    rintro (h | h)
    · exact hu h
    · exact hv h
  constructor
  · unfold clean_response
    rw [List.append_assoc, replace_append_left _ _ _ hhead_j _ _ hu,
      replace_pat_append _ _ _ hjne,
      replace_all_miss _ _ _ hhead_j _ hv, List.nil_append,
      replace_all_miss _ _ _ hhead_f _ huv]
  · unfold clean_response
    have hstep : str_replace fence_json [] (fence ++ v) = fence ++ v := by
      have hfv : fence ++ v = '\x60' :: '\x60' :: '\x60' :: v := rfl
      have hexp : fence_json
          = '\x60' :: '\x60' :: '\x60' :: 'j' :: 's' :: 'o' :: 'n' :: [] := by
        decide
      have h1 : ¬ fence_json <+: '\x60' :: '\x60' :: '\x60' :: v := by
        rw [hexp]
        intro h
        rw [List.cons_prefix_cons] at h
        rw [List.cons_prefix_cons] at h
        rw [List.cons_prefix_cons] at h
        exact hjv (h.2.2.2.subset (List.mem_cons_self _ _))
      have h2 : ¬ fence_json <+: '\x60' :: '\x60' :: v := by
        rw [hexp]
        intro h
        rw [List.cons_prefix_cons] at h
        rw [List.cons_prefix_cons] at h
        exact hv (h.2.2.subset (List.mem_cons_self _ _))
      have h3 : ¬ fence_json <+: '\x60' :: v := by
        rw [hexp]
        intro h
        rw [List.cons_prefix_cons] at h
        exact hv (h.2.subset (List.mem_cons_self _ _))
      rw [hfv, replace_cons_no_match _ _ _ _ h1,
        replace_cons_no_match _ _ _ _ h2, replace_cons_no_match _ _ _ _ h3,
        replace_all_miss _ _ _ hhead_j _ hv]
    rw [List.append_assoc, replace_append_left _ _ _ hhead_j _ _ hu, hstep,
      replace_append_left _ _ _ hhead_f _ _ hu,
      replace_pat_append _ _ _ hfne,
      replace_all_miss _ _ _ hhead_f _ hv, List.nil_append]

/-- Witness for C10 on a JSON-like response whose string value contains
the json fence marker. -/
theorem fence_cleanup_is_global_witness :
    ('\x60' ∉ ("\x7b\x22Root_Cause\x22: \x22" : String).toList
      ∧ '\x60' ∉ (" fence\x22\x7d" : String).toList
      ∧ 'j' ∉ (" fence\x22\x7d" : String).toList)
    ∧ clean_response (("\x7b\x22Root_Cause\x22: \x22" : String).toList
        ++ fence_json ++ (" fence\x22\x7d" : String).toList)
      = pyStrip (("\x7b\x22Root_Cause\x22: \x22" : String).toList
        ++ (" fence\x22\x7d" : String).toList) :=
  ⟨⟨by decide, by decide, by decide⟩,
    (fence_cleanup_is_global _ _ (by decide) (by decide) (by decide)).1⟩

/-- Claim C9: the Stage B fallback does not vary with the diagnosis input;
for any two diagnoses and the same customer name it produces the identical
fixed message naming the customer. -/
theorem concierge_fallback_ignores_diagnosis (d1 d2 customer_name : String) :
    mock_customer_message d1 customer_name = mock_customer_message d2 customer_name
    ∧ mock_customer_message d1 customer_name
      = "Hi " ++ customer_name ++ customer_message_body :=
  ⟨rfl, rfl⟩

end Aftersales
